import Mathlib

/-!
Verification of the realtime TTS session engine in
`src/qwen_tts_realtime.rs` (with its in-repo consumer `src/main.rs`).

The Rust code is shallowly embedded: JSON values are modelled as sorted
association maps (serde_json's default `Value::Object` is a `BTreeMap`,
so objects compare and serialize by key order, with later duplicate
inserts replacing earlier ones); the websocket writer half is a state
(`closed` flag plus the list of text frames pushed so far); the random
`Uuid::new_v4()` draws, the `option_env!`/`std::env::consts` constants
and the fallible external library calls (`into_client_request`,
`connect_async`, `serde_json::from_str`, base64 decode) are supplied by
an explicit environment record; a Rust `panic!`/`unwrap` failure is an
explicit outcome constructor.
-/

/-- A JSON value as used by the engine (`serde_json::Value` restricted to
the shapes the code constructs or inspects).  Objects are association
lists kept sorted by key, mirroring `BTreeMap`. -/
inductive Json where
  | null : Json
  | boolean (b : Bool) : Json
  | num (n : Nat) : Json
  | str (s : String) : Json
  | obj (fields : List (String × Json)) : Json

/-- Lexicographic byte order on keys (`BTreeMap` over `String` orders
by the UTF-8 bytes; on the ASCII keys the code uses this coincides with
character-code order). -/
def keyLt : List Char → List Char → Bool
  | [], [] => false
  | [], _ :: _ => true
  | _ :: _, [] => false
  | a :: as, b :: bs =>
    if a.toNat < b.toNat then true
    else if b.toNat < a.toNat then false
    else keyLt as bs

/-- Insert a key/value pair into a key-sorted field list, replacing an
existing binding of the same key (the `BTreeMap::insert` semantics used
by the `json!` macro). -/
def insertField (kv : String × Json) : List (String × Json) → List (String × Json)
  | [] => [kv]
  | (k, v) :: rest =>
    if keyLt kv.1.data k.data then kv :: (k, v) :: rest
    else if kv.1 == k then kv :: rest
    else (k, v) :: insertField kv rest

/-- Build the `BTreeMap`-backed object produced by `serde_json::json!`
applied to the given fields in source order. -/
def mkObj (fields : List (String × Json)) : Json :=
  Json.obj (fields.foldl (fun acc kv => insertField kv acc) [])

/-- `Value::get(key)` followed by `as_str()`-like field projection:
look a key up in an object. -/
def Json.getField (j : Json) (key : String) : Option Json :=
  match j with
  | .obj fields => fields.lookup key
  | _ => none

/-- Project the string held at `key`, the shape used to read `event_id`,
`type` and `delta` fields. -/
def Json.getStr (j : Json) (key : String) : Option String :=
  match j.getField key with
  | some (.str s) => some s
  | _ => none

/-- The environment of external collaborators consumed by the engine:
the stream of successive `Uuid::new_v4()` draws, the compile-time
`option_env!("RUSTC_VERSION")` / `std::env::consts` values, the outcome
of `IntoClientRequest` on a URL string, the outcome of `connect_async`,
and the `serde_json::from_str` / base64 `STANDARD.decode` primitives
used by the in-repo callback. -/
structure Env where
  uuids : Nat → String
  rustcVersion : Option String
  os : String
  arch : String
  clientRequestOk : String → Bool
  connectOk : Bool
  parseJson : String → Option Json
  b64decode : String → Option (List Nat)

/-- `AudioFormat` from `qwen_tts_realtime.rs` lines 12-18. -/
structure AudioFormat where
  format : String
  sample_rate : Nat
  channels : String
  bit_rate : String
  format_str : String

/-- The `PCM_24000HZ_MONO_16BIT` associated constant (lines 36-42). -/
def AudioFormat.PCM_24000HZ_MONO_16BIT : AudioFormat :=
  { format := "pcm", sample_rate := 24000, channels := "mono",
    bit_rate := "16bit", format_str := "pcm16" }

/-- The writable half of the split websocket (`SplitSink`): whether the
underlying connection is already closed/terminated, and the text frames
successfully written so far. -/
structure StreamWriter where
  closed : Bool
  sent : List Json

/-- The error produced by `SplitSink::send` on a closed websocket
(tungstenite `Error::ConnectionClosed` / `Error::AlreadyClosed`). -/
inductive SendError where
  | connectionClosed : SendError

/-- `stream_writer.send(Message::text(msg.to_string()))`: on a closed
transport the send fails with a connection-closed error and nothing is
written; otherwise the frame is appended to the wire. -/
def StreamWriter.send (w : StreamWriter) (msg : Json) : Except SendError StreamWriter :=
  if w.closed then .error .connectionClosed
  else .ok { w with sent := w.sent ++ [msg] }

/-- `QwenTtsRealtime` (line 51-53): the session owns the single writer
half.  `uuidIndex` counts how many `Uuid::new_v4()` draws the session
has made, indexing into `Env.uuids`. -/
structure QwenTtsRealtime where
  stream_writer : StreamWriter
  uuidIndex : Nat

/-- `_generate_event_id` (lines 144-146):
`format!("event_{}", Uuid::new_v4())` at the given draw index. -/
def generate_event_id (env : Env) (idx : Nat) : String :=
  "event_" ++ env.uuids idx

/-- `update_session` (lines 149-171): build the `session.update`
envelope with a fresh event id and send it as one text frame.  The event
id is drawn before the send, so the draw happens even when the send
fails. -/
def update_session (env : Env) (s : QwenTtsRealtime) (voice : String)
    (response_format : AudioFormat) (mode : String) :
    Except SendError Unit × QwenTtsRealtime :=
  let config := mkObj [("voice", .str voice), ("mode", .str mode),
    ("response_format", .str response_format.format),
    ("sample_rate", .num response_format.sample_rate)]
  let msg := mkObj [("event_id", .str (generate_event_id env s.uuidIndex)),
    ("type", .str "session.update"), ("session", config)]
  match s.stream_writer.send msg with
  | .error e => (.error e, { s with uuidIndex := s.uuidIndex + 1 })
  | .ok w => (.ok (), { stream_writer := w, uuidIndex := s.uuidIndex + 1 })

/-- `append_text` (lines 173-183). -/
def append_text (env : Env) (s : QwenTtsRealtime) (text : String) :
    Except SendError Unit × QwenTtsRealtime :=
  let msg := mkObj [("event_id", .str (generate_event_id env s.uuidIndex)),
    ("type", .str "input_text_buffer.append"), ("text", .str text)]
  match s.stream_writer.send msg with
  | .error e => (.error e, { s with uuidIndex := s.uuidIndex + 1 })
  | .ok w => (.ok (), { stream_writer := w, uuidIndex := s.uuidIndex + 1 })

/-- `finish` (lines 185-194). -/
def finish (env : Env) (s : QwenTtsRealtime) :
    Except SendError Unit × QwenTtsRealtime :=
  let msg := mkObj [("event_id", .str (generate_event_id env s.uuidIndex)),
    ("type", .str "session.finish")]
  match s.stream_writer.send msg with
  | .error e => (.error e, { s with uuidIndex := s.uuidIndex + 1 })
  | .ok w => (.ok (), { stream_writer := w, uuidIndex := s.uuidIndex + 1 })

/-!  Connection establishment (`QwenTtsRealtime::new`, lines 58-142). -/

/-- Validity of a string as an HTTP header value
(`HeaderValue::from_str` in the `http` crate): every byte must be the
horizontal tab or a byte in 32..=255 other than 127.  Characters at or
above 128 encode to UTF-8 bytes in 128..=255, which are all permitted
obs-text bytes, so validity over characters coincides with validity
over the encoded bytes. -/
def isValidHeaderValue (s : String) : Bool :=
  s.data.all fun c => c == '\t' || (decide (32 ≤ c.toNat) && !(c == Char.ofNat 127))

/-- URL construction (lines 65-72): the explicit endpoint or the
default one, with the model appended as a query parameter. -/
def buildUrl (model_name : String) (url : Option String) : String :=
  match url with
  | some u => u ++ "?model=" ++ model_name
  | none => "wss://dashscope.aliyuncs.com/api-ws/v1/realtime?model=" ++ model_name

/-- The `user-agent` string (lines 73-80).  The Rust string literal uses
trailing-backslash continuations, which strip the newline and leading
whitespace, so no separator appears before `platform/` and
`processor/`. -/
def userAgent (env : Env) : String :=
  "dashscope/1.18.0; rust/" ++ env.rustcVersion.getD "Unknown Rustc Version"
    ++ ";platform/" ++ env.os ++ "processor/" ++ env.arch

/-- The client request assembled before the handshake: target URL and
header list in insertion order. -/
structure ClientRequest where
  url : String
  headers : List (String × String)

/-- Outcome of `QwenTtsRealtime::new` up to the handshake: either a
Rust panic (from one of the `.unwrap()`/`.expect(..)` calls, labelled by
the call that failed) or a connected session carrying the request that
was sent. -/
inductive SetupResult where
  | panicked (label : String) : SetupResult
  | connected (request : ClientRequest) (session : QwenTtsRealtime) : SetupResult

/-- The `connect_async(request).await.expect("Failed to connect")` step
(line 95) followed by the split and construction of the session value
(lines 101, 141): the fresh session owns an open writer and has made no
uuid draws yet. -/
def connectStep (env : Env) (u : String) (headers : List (String × String)) : SetupResult :=
  if env.connectOk then
    .connected { url := u, headers := headers }
      { stream_writer := { closed := false, sent := [] }, uuidIndex := 0 }
  else .panicked "Failed to connect"

/-- `QwenTtsRealtime::new`, lines 58-95: build the URL, turn it into a
client request (`.unwrap()`), insert the `user-agent`, `Authorization`
and optional `X-DashScope-WorkSpace` headers (each header value parsed
with `.unwrap()`), then perform the handshake
(`.expect("Failed to connect")`).  Every failure is a panic, never an
error return. -/
def qwenNew (env : Env) (model_name api_key : String)
    (url workspace : Option String) : SetupResult :=
  let u := buildUrl model_name url
  let ua := userAgent env
  if !env.clientRequestOk u then .panicked "into_client_request unwrap"
  else if !isValidHeaderValue ua then .panicked "user-agent parse unwrap"
  else if !isValidHeaderValue ("bearer " ++ api_key) then
    .panicked "Authorization parse unwrap"
  else
    let headers := [("user-agent", ua), ("Authorization", "bearer " ++ api_key)]
    match workspace with
    | some w =>
      if !isValidHeaderValue w then .panicked "X-DashScope-WorkSpace parse unwrap"
      else connectStep env u (headers ++ [("X-DashScope-WorkSpace", w)])
    | none => connectStep env u headers

/-!  The event dispatch loop (lines 103-139) and the callback trait
(lines 45-49). -/

/-- One inbound message from `stream_reader.next()`: a text frame
(tungstenite text payloads are `String`s, so `msg.to_text().unwrap()`
on a text frame cannot fail), a close frame, or any other frame kind
(binary/ping/pong), which the loop only logs. -/
inductive InMessage where
  | text (payload : String) : InMessage
  | close : InMessage
  | binary : InMessage

/-- The `QwenTtsRealtimeCallback` trait (lines 45-49) over an external
state: `on_open` and `on_close` are side-effecting observations,
`on_event` takes the raw text payload and returns the abort flag.
`on_event` returning `none` models a panic inside the callback body
(e.g. an `unwrap` failure), which kills the reader task. -/
structure Callback (State : Type) where
  on_open : State → State
  on_close : State → String → State
  on_event : State → String → Option (State × Bool)

/-- Records one callback invocation made by the dispatch loop.
`finishInv` exists to state the specified `on_finished` reaction; the
trait in the source has no such method, so the loop can never emit
it. -/
inductive Invocation where
  | openInv : Invocation
  | closeInv (msg : String) : Invocation
  | eventInv (payload : String) : Invocation
  | finishInv (msg : String) : Invocation
deriving DecidableEq

/-- The path by which the loop's `while let` ended: `on_event` returned
`true` (`break` at line 118), a close frame (`break` at line 127), a
transport read error (`break` at line 134), the stream yielding `None`,
or a panic inside the callback aborting the task. -/
inductive LoopExit where
  | aborted : LoopExit
  | closedByServer : LoopExit
  | readError (e : String) : LoopExit
  | streamEnded : LoopExit
  | callbackPanicked : LoopExit
deriving DecidableEq

/-- Result of running the dispatch loop: final callback state, the
sequence of callback invocations, and the exit path. -/
structure LoopResult (State : Type) where
  state : State
  trace : List Invocation
  exit : LoopExit

/-- The reader-task loop (lines 107-137) over the list of messages the
transport yields: text frames are handed verbatim to `on_event` (abort
breaks the loop), close frames invoke `on_close` and break, other frame
kinds are logged and skipped, a read error breaks. -/
def dispatchLoop (cb : Callback State) (st : State) :
    List (Except String InMessage) → LoopResult State
  | [] => { state := st, trace := [], exit := .streamEnded }
  | .error e :: _ => { state := st, trace := [], exit := .readError e }
  | .ok (.text p) :: rest =>
    match cb.on_event st p with
    | none => { state := st, trace := [.eventInv p], exit := .callbackPanicked }
    | some (st2, true) => { state := st2, trace := [.eventInv p], exit := .aborted }
    | some (st2, false) =>
      let r := dispatchLoop cb st2 rest
      { state := r.state, trace := .eventInv p :: r.trace, exit := r.exit }
  | .ok .close :: _ =>
    { state := cb.on_close st "Connection closed by server",
      trace := [.closeInv "Connection closed by server"],
      exit := .closedByServer }
  | .ok .binary :: rest => dispatchLoop cb st rest

/-- Lines 103-105 and 141: with a callback, `new` fires `on_open` once
and spawns the reader task; without one, nothing is ever invoked.  This
returns the full invocation sequence a session produces on a given
inbound stream. -/
def new_trace (cb : Option (Callback State)) (st : State)
    (frames : List (Except String InMessage)) : List Invocation :=
  match cb with
  | none => []
  | some c => .openInv :: (dispatchLoop c (c.on_open st) frames).trace

/-- Line 105: `tokio::spawn` is executed exactly when a callback was
supplied, so the number of background reader tasks is 1 with a callback
and 0 without. -/
def new_reader_tasks (cb : Option (Callback State)) : Nat :=
  match cb with
  | some _ => 1
  | none => 0

/-- Line 101/141: the session owns the single `SplitSink` writer half;
the struct has exactly one writer field. -/
def new_writer_count : Nat := 1

/-!  The repository's own conforming callback, `MyCallback` in
`src/main.rs` lines 13-87 (the copy in the module's tests is
identical except for the extra `on_finish` member in `main.rs`). -/

/-- External state of `MyCallback`: the bytes appended to the audio
file sink, and the `session_finished` atomic flag. -/
structure MyCallbackState where
  file : List Nat
  session_finished : Bool

/-- `MyCallback::on_event` (`main.rs` lines 52-86):
`serde_json::from_str(message).unwrap()` — a parse failure panics
(`none`); then the `type` discriminator is matched,
`response.audio.delta` base64-decodes `delta` with `.unwrap()` (decode
failure panics) and appends the bytes to the file, `session.finished`
returns `true`, everything else (including a missing or non-string
`type`) falls through to `false`. -/
def myCallbackOnEvent (env : Env) (st : MyCallbackState) (message : String) :
    Option (MyCallbackState × Bool) :=
  match env.parseJson message with
  | none => none
  | some v =>
    match v.getStr "type" with
    | some t =>
      if t = "session.created" then some (st, false)
      else if t = "response.audio.delta" then
        match v.getStr "delta" with
        | some d =>
          match env.b64decode d with
          | none => none
          | some bytes => some ({ st with file := st.file ++ bytes }, false)
        | none => some (st, false)
      else if t = "response.done" then some (st, false)
      else if t = "session.finished" then some (st, true)
      else some (st, false)
    | none => some (st, false)

/-- `MyCallback` as a `Callback`: `on_open` and `on_close` only log. -/
def myCallback (env : Env) : Callback MyCallbackState :=
  { on_open := fun st => st,
    on_close := fun st _ => st,
    on_event := myCallbackOnEvent env }

/-!  Sequences of outbound commands, for the event-id uniqueness
claim. -/

/-- One caller-issued command on a live session. -/
inductive Command where
  | updateSession (voice : String) (response_format : AudioFormat) (mode : String) : Command
  | appendText (text : String) : Command
  | finishCmd : Command

/-- Dispatch one command to the corresponding session operation. -/
def runCommand (env : Env) (s : QwenTtsRealtime) :
    Command → Except SendError Unit × QwenTtsRealtime
  | .updateSession voice rf mode => update_session env s voice rf mode
  | .appendText text => append_text env s text
  | .finishCmd => finish env s

/-- Issue a list of commands in order on a session. -/
def runCommands (env : Env) (s : QwenTtsRealtime) : List Command → QwenTtsRealtime
  | [] => s
  | c :: cs => runCommands env (runCommand env s c).2 cs

/-- The session value `new` returns on success (line 141, with the
writer open and no uuid draws made). -/
def newSession : QwenTtsRealtime :=
  { stream_writer := { closed := false, sent := [] }, uuidIndex := 0 }

/-- The event ids a session's command sequence produced, starting at
draw index `k`: `"event_" ++ uuid(k)`, `"event_" ++ uuid(k+1)`, ... -/
def idsFrom (env : Env) (k : Nat) : Nat → List (Option String)
  | 0 => []
  | n + 1 => some (generate_event_id env k) :: idsFrom env (k + 1) n

/-- Whether an invocation is the open reaction. -/
def Invocation.isOpen : Invocation → Bool
  | .openInv => true
  | _ => false

/-- Whether an invocation is the specified finished reaction. -/
def Invocation.isFinished : Invocation → Bool
  | .finishInv _ => true
  | _ => false

/-!  Helper lemmas. -/

theorem dispatchLoop_trace_shape (cb : Callback State)
    (frames : List (Except String InMessage)) :
    ∀ st : State,
      ((dispatchLoop cb st frames).trace.countP Invocation.isOpen) = 0
      ∧ ((dispatchLoop cb st frames).trace.countP Invocation.isFinished) = 0 := by
  induction frames with
  | nil => exact fun st => ⟨rfl, rfl⟩
  | cons msg rest ih =>
    intro st
    match msg with
    | .error e => exact ⟨rfl, rfl⟩
    | .ok (.text p) =>
      simp only [dispatchLoop]
      cases h : cb.on_event st p with
      | none => exact ⟨rfl, rfl⟩
      | some r =>
        obtain ⟨st2, b⟩ := r
        cases b with
        | true => exact ⟨rfl, rfl⟩
        | false =>
          have hr := ih st2
          simp only [List.countP_cons, Invocation.isOpen, Invocation.isFinished,
            hr.1, hr.2]
          exact ⟨rfl, rfl⟩
    | .ok .close => exact ⟨rfl, rfl⟩
    | .ok .binary => exact ih st

/-!  Claim theorems. -/

/-- C1: the dispatch loop of the source never invokes any finished
reaction on any termination path — the callback trait has no such
method, so every session trace contains zero finished invocations,
contradicting the specified "exactly once". -/
theorem termination_never_fires_finished (cb : Option (Callback State)) (st : State)
    (frames : List (Except String InMessage)) :
    (new_trace cb st frames).countP Invocation.isFinished = 0 := by
  cases cb with
  | none => rfl
  | some c =>
    simp [new_trace, List.countP_cons, Invocation.isFinished,
      (dispatchLoop_trace_shape c frames (c.on_open st)).2]

/-- C5: a session created with a callback invokes the open reaction
first and exactly once: the invocation trace starts with the open
invocation and contains no other one. -/
theorem on_open_first_and_exactly_once (cb : Callback State) (st : State)
    (frames : List (Except String InMessage)) :
    (new_trace (some cb) st frames).head? = some .openInv
    ∧ (new_trace (some cb) st frames).countP Invocation.isOpen = 1 := by
  refine ⟨rfl, ?_⟩
  simp [new_trace, List.countP_cons, Invocation.isOpen,
    (dispatchLoop_trace_shape cb frames (cb.on_open st)).1]

/-- C6: whenever the callback's event reaction returns the abort flag
on a text frame, the loop stops at that frame: no remaining frame is
processed and the exit path is the consumer-requested abort, distinct
from every error exit. -/
theorem abort_stops_loop_gracefully (cb : Callback State) (st st2 : State)
    (p : String) (rest : List (Except String InMessage))
    (h : cb.on_event st p = some (st2, true)) :
    dispatchLoop cb st (.ok (.text p) :: rest)
      = { state := st2, trace := [.eventInv p], exit := .aborted } := by
  simp only [dispatchLoop, h]

/-- A callback whose event reaction always requests the abort. -/
def abortingCallback : Callback Unit :=
  { on_open := fun st => st,
    on_close := fun st _ => st,
    on_event := fun st _ => some (st, true) }

/-- Witness for C6: the aborting callback stops the loop on the first
text frame, leaving the following close frame unprocessed. -/
theorem abort_stops_loop_gracefully_witness :
    abortingCallback.on_event () "x" = some ((), true)
    ∧ dispatchLoop abortingCallback () [.ok (.text "x"), .ok .close]
        = { state := (), trace := [.eventInv "x"], exit := .aborted } :=
  ⟨rfl, abort_stops_loop_gracefully abortingCallback () () "x" [.ok .close] rfl⟩

/-- A concrete environment: injective uuid stream, ordinary platform
constants, all external calls succeeding. -/
def witnessEnv : Env :=
  { uuids := fun n => String.mk (List.replicate n 'a'),
    rustcVersion := some "1.80.0",
    os := "linux",
    arch := "x86_64",
    clientRequestOk := fun _ => true,
    connectOk := true,
    parseJson := fun _ => none,
    b64decode := fun _ => none }

theorem witnessEnv_uuids_injective : Function.Injective witnessEnv.uuids := by
  intro a b h
  have hd : List.replicate a 'a' = List.replicate b 'a' := congrArg String.data h
  simpa using congrArg List.length hd

/-- A session whose transport has already closed or errored. -/
def closedSession : QwenTtsRealtime :=
  { stream_writer := { closed := true, sent := [] }, uuidIndex := 0 }

/-- C4: on a session whose transport is already closed or in a terminal
state, each of the three command operations fails with the
connection-closed ("session closed") error and writes no frame. -/
theorem closed_session_rejects_commands (env : Env) (s : QwenTtsRealtime)
    (voice mode text : String) (rf : AudioFormat)
    (h : s.stream_writer.closed = true) :
    (update_session env s voice rf mode).1 = .error .connectionClosed
    ∧ (update_session env s voice rf mode).2.stream_writer.sent = s.stream_writer.sent
    ∧ (append_text env s text).1 = .error .connectionClosed
    ∧ (append_text env s text).2.stream_writer.sent = s.stream_writer.sent
    ∧ (finish env s).1 = .error .connectionClosed
    ∧ (finish env s).2.stream_writer.sent = s.stream_writer.sent := by
  refine ⟨?_, ?_, ?_, ?_, ?_, ?_⟩ <;>
    simp [update_session, append_text, finish, StreamWriter.send, h]

/-- Witness for C4 on a concrete closed session. -/
theorem closed_session_rejects_commands_witness :
    closedSession.stream_writer.closed = true
    ∧ (update_session witnessEnv closedSession "Cherry"
        AudioFormat.PCM_24000HZ_MONO_16BIT "server_commit").1
      = .error .connectionClosed :=
  ⟨rfl, (closed_session_rejects_commands witnessEnv closedSession "Cherry"
    "server_commit" "hi" AudioFormat.PCM_24000HZ_MONO_16BIT rfl).1⟩

/-- The outbound session.update envelope exactly as the specification
writes it: fields event_id, type "session.update", and a session object
with voice, mode, response_format and sample_rate. -/
def spec_session_update_frame (eid voice : String) (rf : AudioFormat) (mode : String) : Json :=
  mkObj [("event_id", .str eid), ("type", .str "session.update"),
    ("session", mkObj [("voice", .str voice), ("mode", .str mode),
      ("response_format", .str rf.format), ("sample_rate", .num rf.sample_rate)])]

/-- The outbound input_text_buffer.append envelope exactly as the
specification writes it. -/
def spec_append_frame (eid text : String) : Json :=
  mkObj [("event_id", .str eid), ("type", .str "input_text_buffer.append"),
    ("text", .str text)]

/-- The outbound session.finish envelope exactly as the specification
writes it. -/
def spec_finish_frame (eid : String) : Json :=
  mkObj [("event_id", .str eid), ("type", .str "session.finish")]

/-- C7: for all argument values, each command operation sends exactly
one text frame holding exactly the JSON object the specification
prescribes, carrying the freshly drawn event id. -/
theorem commands_serialize_exact_envelopes (env : Env) (s : QwenTtsRealtime)
    (voice mode text : String) (rf : AudioFormat)
    (h : s.stream_writer.closed = false) :
    (update_session env s voice rf mode).2.stream_writer.sent
      = s.stream_writer.sent
        ++ [spec_session_update_frame (generate_event_id env s.uuidIndex) voice rf mode]
    ∧ (append_text env s text).2.stream_writer.sent
      = s.stream_writer.sent
        ++ [spec_append_frame (generate_event_id env s.uuidIndex) text]
    ∧ (finish env s).2.stream_writer.sent
      = s.stream_writer.sent
        ++ [spec_finish_frame (generate_event_id env s.uuidIndex)] := by
  refine ⟨?_, ?_, ?_⟩ <;>
    simp [update_session, append_text, finish, StreamWriter.send, h,
      spec_session_update_frame, spec_append_frame, spec_finish_frame]

/-- Witness for C7 on a fresh session with the demo's arguments. -/
theorem commands_serialize_exact_envelopes_witness :
    newSession.stream_writer.closed = false
    ∧ (update_session witnessEnv newSession "Cherry"
        AudioFormat.PCM_24000HZ_MONO_16BIT "server_commit").2.stream_writer.sent
      = newSession.stream_writer.sent
        ++ [spec_session_update_frame (generate_event_id witnessEnv newSession.uuidIndex)
            "Cherry" AudioFormat.PCM_24000HZ_MONO_16BIT "server_commit"] :=
  ⟨rfl, (commands_serialize_exact_envelopes witnessEnv newSession "Cherry"
    "server_commit" "hi" AudioFormat.PCM_24000HZ_MONO_16BIT rfl).1⟩

theorem update_frame_id (env : Env) (idx : Nat) (voice mode : String) (rf : AudioFormat) :
    (mkObj [("event_id", Json.str (generate_event_id env idx)),
      ("type", Json.str "session.update"),
      ("session", mkObj [("voice", Json.str voice), ("mode", Json.str mode),
        ("response_format", Json.str rf.format),
        ("sample_rate", Json.num rf.sample_rate)])]).getStr "event_id"
    = some (generate_event_id env idx) := rfl

theorem append_frame_id (env : Env) (idx : Nat) (text : String) :
    (mkObj [("event_id", Json.str (generate_event_id env idx)),
      ("type", Json.str "input_text_buffer.append"),
      ("text", Json.str text)]).getStr "event_id"
    = some (generate_event_id env idx) := rfl

theorem finish_frame_id (env : Env) (idx : Nat) :
    (mkObj [("event_id", Json.str (generate_event_id env idx)),
      ("type", Json.str "session.finish")]).getStr "event_id"
    = some (generate_event_id env idx) := rfl

theorem runCommand_step (env : Env) (s : QwenTtsRealtime) (c : Command)
    (h : s.stream_writer.closed = false) :
    (runCommand env s c).2.stream_writer.closed = false
    ∧ (runCommand env s c).2.uuidIndex = s.uuidIndex + 1
    ∧ (runCommand env s c).2.stream_writer.sent.map (fun j => j.getStr "event_id")
      = s.stream_writer.sent.map (fun j => j.getStr "event_id")
        ++ [some (generate_event_id env s.uuidIndex)] := by
  cases c with
  | updateSession voice rf mode =>
    refine ⟨?_, ?_, ?_⟩ <;>
      simp [runCommand, update_session, StreamWriter.send, h, update_frame_id]
  | appendText text =>
    refine ⟨?_, ?_, ?_⟩ <;>
      simp [runCommand, append_text, StreamWriter.send, h, append_frame_id]
  | finishCmd =>
    refine ⟨?_, ?_, ?_⟩ <;>
      simp [runCommand, finish, StreamWriter.send, h, finish_frame_id]

theorem runCommands_ids (env : Env) (cmds : List Command) :
    ∀ s : QwenTtsRealtime, s.stream_writer.closed = false →
      (runCommands env s cmds).stream_writer.sent.map (fun j => j.getStr "event_id")
        = s.stream_writer.sent.map (fun j => j.getStr "event_id")
          ++ idsFrom env s.uuidIndex cmds.length := by
  induction cmds with
  | nil => intro s h; simp [runCommands, idsFrom]
  | cons c cs ih =>
    intro s h
    obtain ⟨hc, hu, hm⟩ := runCommand_step env s c h
    have hrec := ih (runCommand env s c).2 hc
    calc (runCommands env s (c :: cs)).stream_writer.sent.map (fun j => j.getStr "event_id")
        = (runCommands env (runCommand env s c).2 cs).stream_writer.sent.map
            (fun j => j.getStr "event_id") := rfl
      _ = (runCommand env s c).2.stream_writer.sent.map (fun j => j.getStr "event_id")
            ++ idsFrom env (runCommand env s c).2.uuidIndex cs.length := hrec
      _ = (s.stream_writer.sent.map (fun j => j.getStr "event_id")
            ++ [some (generate_event_id env s.uuidIndex)])
            ++ idsFrom env (s.uuidIndex + 1) cs.length := by rw [hm, hu]
      _ = s.stream_writer.sent.map (fun j => j.getStr "event_id")
            ++ idsFrom env s.uuidIndex (c :: cs).length := by
            rw [List.append_assoc]; rfl

theorem runCommands_count (env : Env) (cmds : List Command) :
    ∀ s : QwenTtsRealtime, s.stream_writer.closed = false →
      (runCommands env s cmds).stream_writer.sent.length
        = s.stream_writer.sent.length + cmds.length := by
  induction cmds with
  | nil => intro s h; simp [runCommands]
  | cons c cs ih =>
    intro s h
    obtain ⟨hc, hu, hm⟩ := runCommand_step env s c h
    have hlen : (runCommand env s c).2.stream_writer.sent.length
        = s.stream_writer.sent.length + 1 := by
      simpa using congrArg List.length hm
    have hrec := ih (runCommand env s c).2 hc
    rw [runCommands, hrec, hlen]
    simp
    omega

theorem string_append_cancel_left (s a b : String) (h : s ++ a = s ++ b) : a = b := by
  cases s with | mk sd =>
  cases a with | mk ad =>
  cases b with | mk bd =>
  have hd : sd ++ ad = sd ++ bd := congrArg String.data h
  exact congrArg String.mk (List.append_cancel_left hd)

theorem generate_event_id_injective (env : Env) (hinj : Function.Injective env.uuids) :
    Function.Injective (generate_event_id env) := by
  intro a b h
  exact hinj (string_append_cancel_left "event_" (env.uuids a) (env.uuids b) h)

theorem mem_idsFrom (env : Env) :
    ∀ (n k : Nat) (x : Option String), x ∈ idsFrom env k n →
      ∃ i, i < n ∧ x = some (generate_event_id env (k + i)) := by
  intro n
  induction n with
  | zero => intro k x hx; simp [idsFrom] at hx
  | succ m ih =>
    intro k x hx
    rw [idsFrom, List.mem_cons] at hx
    rcases hx with h | h
    · exact ⟨0, by omega, by simpa using h⟩
    · obtain ⟨i, hi, hx⟩ := ih (k + 1) x h
      refine ⟨i + 1, by omega, ?_⟩
      have harith : k + 1 + i = k + (i + 1) := by omega
      rw [hx, harith]

theorem idsFrom_nodup (env : Env) (hinj : Function.Injective env.uuids) :
    ∀ (n k : Nat), (idsFrom env k n).Nodup := by
  intro n
  induction n with
  | zero => intro k; simp [idsFrom]
  | succ m ih =>
    intro k
    rw [idsFrom, List.nodup_cons]
    refine ⟨?_, ih (k + 1)⟩
    intro hmem
    obtain ⟨i, _, hx⟩ := mem_idsFrom env m (k + 1) _ hmem
    have heq : generate_event_id env k = generate_event_id env (k + 1 + i) :=
      Option.some.inj hx
    have := generate_event_id_injective env hinj heq
    omega

/-- C8: starting from a fresh session, issuing any list of commands puts
exactly one frame per command on the wire, each carrying the event id of
a fresh uuid draw, and the carried ids are pairwise distinct provided
the uuid source (the successive random v4 draws) never repeats. -/
theorem event_ids_pairwise_distinct (env : Env)
    (hinj : Function.Injective env.uuids) (cmds : List Command) :
    ((runCommands env newSession cmds).stream_writer.sent.map
      (fun j => j.getStr "event_id")).Nodup
    ∧ (runCommands env newSession cmds).stream_writer.sent.length = cmds.length
    ∧ (runCommands env newSession cmds).stream_writer.sent.map
        (fun j => j.getStr "event_id") = idsFrom env 0 cmds.length := by
  have hids := runCommands_ids env cmds newSession rfl
  have hlen := runCommands_count env cmds newSession rfl
  refine ⟨?_, ?_, ?_⟩
  · rw [hids]
    simpa using idsFrom_nodup env hinj cmds.length 0
  · simpa [newSession] using hlen
  · simpa using hids

/-- Witness for C8: three commands on a fresh session under an
injective uuid stream yield three pairwise-distinct event ids. -/
theorem event_ids_pairwise_distinct_witness :
    Function.Injective witnessEnv.uuids
    ∧ ((runCommands witnessEnv newSession
        [Command.updateSession "Cherry" AudioFormat.PCM_24000HZ_MONO_16BIT "server_commit",
         Command.appendText "hi", Command.finishCmd]).stream_writer.sent.map
        (fun j => j.getStr "event_id")).Nodup :=
  ⟨witnessEnv_uuids_injective,
    (event_ids_pairwise_distinct witnessEnv witnessEnv_uuids_injective
      [Command.updateSession "Cherry" AudioFormat.PCM_24000HZ_MONO_16BIT "server_commit",
       Command.appendText "hi", Command.finishCmd]).1⟩

/-- An environment in which the websocket handshake fails (network
error or rejection at connect_async). -/
def connectFailEnv : Env :=
  { witnessEnv with connectOk := false }

/-- C2 (divergence witness): when connection establishment fails at the
handshake, new panics with the expect message instead of returning a
connection error to the caller. -/
theorem connect_failure_panics :
    qwenNew connectFailEnv "qwen3-tts-flash-realtime" "valid-key" none none
      = SetupResult.panicked "Failed to connect" := rfl

/-- An environment whose JSON parser accepts exactly the payload
"good" (a well-formed response.done envelope) and rejects everything
else. -/
def c3Env : Env :=
  { witnessEnv with
    parseJson := fun s =>
      if s = "good" then some (mkObj [("type", Json.str "response.done")]) else none }

/-- C3 (divergence witness): a malformed text frame makes the
repository's callback panic inside serde_json unwrap, killing the
reader task: the following well-formed frame is never dispatched, while
the same well-formed frame alone would have been dispatched and the
loop would have continued. -/
theorem malformed_frame_kills_reader_task :
    dispatchLoop (myCallback c3Env) { file := [], session_finished := false }
        [.ok (.text "bad"), .ok (.text "good")]
      = { state := { file := [], session_finished := false },
          trace := [.eventInv "bad"], exit := .callbackPanicked }
    ∧ dispatchLoop (myCallback c3Env) { file := [], session_finished := false }
        [.ok (.text "good")]
      = { state := { file := [], session_finished := false },
          trace := [.eventInv "good"], exit := .streamEnded } :=
  ⟨rfl, rfl⟩

/-- C9 (counterexample): a session created without a callback spawns no
background reader task at all, refuting "exactly one reader task per
live session including one created with no callback supplied". -/
theorem no_reader_task_without_callback :
    new_reader_tasks (none : Option (Callback Unit)) = 0
    ∧ Nat.beq (new_reader_tasks (none : Option (Callback Unit))) 1 = false :=
  ⟨rfl, rfl⟩

/-- C9 (amended): every session owns exactly one writer, and the number
of background reader tasks is one exactly when a callback was supplied,
zero otherwise. -/
theorem one_writer_reader_task_iff_callback (cb : Option (Callback State)) :
    new_writer_count = 1
    ∧ new_reader_tasks cb = if cb.isSome then 1 else 0 := by
  cases cb <;> simp [new_writer_count, new_reader_tasks]

/-- An environment in which turning the URL into a client request
fails. -/
def badUrlEnv : Env :=
  { witnessEnv with clientRequestOk := fun _ => false }

/-- C10: new is not total.  There are api_key values and workspace
values that are not valid HTTP header values, and URL values on which
the client request cannot be built, for which new panics during
request/header construction instead of returning an error. -/
theorem new_panics_on_invalid_inputs :
    (∃ (env : Env) (key : String), isValidHeaderValue ("bearer " ++ key) = false
      ∧ qwenNew env "m" key none none
        = SetupResult.panicked "Authorization parse unwrap")
    ∧ (∃ (env : Env) (ws : String), isValidHeaderValue ws = false
      ∧ qwenNew env "m" "key" none (some ws)
        = SetupResult.panicked "X-DashScope-WorkSpace parse unwrap")
    ∧ (∃ (env : Env) (u : String),
        env.clientRequestOk (buildUrl "m" (some u)) = false
      ∧ qwenNew env "m" "key" (some u) none
        = SetupResult.panicked "into_client_request unwrap") :=
  ⟨⟨witnessEnv, "a\nb", rfl, rfl⟩,
   ⟨witnessEnv, "a\nb", rfl, rfl⟩,
   ⟨badUrlEnv, "u", rfl, rfl⟩⟩
